import Mathlib

/-!
Shallow embedding of the repository's two source files:

* `src/logging_utils.py` — `generate_log_filename` and `setup_logging`,
  together with the fragments of Python's `logging` / `pathlib` / `datetime`
  standard libraries they rely on (root-logger state, handlers, `%`-style
  record formatting, `strftime`, `Path.mkdir`).
* `conf/load_config.py` — `load_config`, together with the fragment of the
  external `hydra` library it relies on (the `GlobalHydra` singleton state:
  `initialize`, `compose`, `clear`).

Filesystem and wall-clock effects are made explicit: each call takes the
current filesystem / clock as input, and operations that can fail with an
environment error (directory creation, opening the log file) take a boolean
saying whether the environment makes that operation fail.  Exceptions are
modelled as an `Option PyErr` result paired with the state at the moment of
the raise, since Python mutations performed before a raise persist.
-/

namespace SampleProject

/-! ### Paths

A `Path` is the list of its nonempty components.  `parsePath` mirrors the
normalisation `pathlib.Path` applies to relative paths: repeated and
trailing slashes collapse (`Path("a//b/")` has parts `("a", "b")`).
Absolute-path roots and drive letters do not occur in this repository and
are not modelled. -/

abbrev PyPath := List String

/-- Split a character list at `'/'` separators (the components of
`String.splitOn "/"`, spelled out over the character list). -/
def splitSlashAux : List Char → List Char → List (List Char)
  | [], acc => [acc.reverse]
  | c :: rest, acc =>
      if c = '/' then acc.reverse :: splitSlashAux rest []
      else splitSlashAux rest (c :: acc)

def parsePath (s : String) : PyPath :=
  ((splitSlashAux s.data []).map (fun cs => (⟨cs⟩ : String))).filter (fun c => c ≠ "")

/-- All nonempty ancestor prefixes of a path, the path itself included;
these are the directories `Path.mkdir(parents=True)` creates. -/
def pathPrefixes (p : PyPath) : List PyPath :=
  (List.range p.length).map (fun i => p.take (i + 1))

/-! ### Wall-clock time and `strftime` -/

structure PyDateTime where
  year : Nat
  month : Nat
  day : Nat
  hour : Nat
  minute : Nat
  second : Nat
  deriving DecidableEq, Repr

/-- Zero-pad a numeral to two digits, as `%d`, `%m`, `%H`, `%M`, `%S` do. -/
def pad2 (n : Nat) : String :=
  if n < 10 then "0" ++ toString n else toString n

/-- Zero-pad a numeral to four digits, as `%Y` does for the years in scope. -/
def pad4 (n : Nat) : String :=
  if n < 10 then "000" ++ toString n
  else if n < 100 then "00" ++ toString n
  else if n < 1000 then "0" ++ toString n
  else toString n

/-- One left-to-right pass over a `strftime` format string, expanding the
directives the source uses (`%d %m %Y %H %M %S`); any other character is
copied verbatim.  Expanded text is not rescanned, as in C `strftime`. -/
def strftimeAux (t : PyDateTime) : List Char → List Char
  | '%' :: 'Y' :: rest => (pad4 t.year).data ++ strftimeAux t rest
  | '%' :: 'm' :: rest => (pad2 t.month).data ++ strftimeAux t rest
  | '%' :: 'd' :: rest => (pad2 t.day).data ++ strftimeAux t rest
  | '%' :: 'H' :: rest => (pad2 t.hour).data ++ strftimeAux t rest
  | '%' :: 'M' :: rest => (pad2 t.minute).data ++ strftimeAux t rest
  | '%' :: 'S' :: rest => (pad2 t.second).data ++ strftimeAux t rest
  | c :: rest => c :: strftimeAux t rest
  | [] => []

def strftime (fmt : String) (t : PyDateTime) : String :=
  ⟨strftimeAux t fmt.data⟩

/-! ### Filesystem state and Python exceptions -/

/-- The observable filesystem / process resources the two functions touch:
which directories and files exist, and which file handles the process holds
open (a handle is pushed when a `FileHandler` opens its file and would be
removed by `Handler.close`). -/
structure FS where
  dirs : List PyPath
  files : List PyPath
  openHandles : List PyPath
  deriving DecidableEq, Repr

inductive PyErr where
  /-- Python `ValueError(msg)` -/
  | valueError (msg : String)
  /-- Python `OSError` family: permission denied, invalid path, … -/
  | osError
  deriving DecidableEq, Repr

def FS.addDir (fs : FS) (d : PyPath) : FS :=
  { fs with dirs := if fs.dirs.contains d then fs.dirs else fs.dirs ++ [d] }

/-- Model of `Path.mkdir(parents=True, exist_ok=True)`: creates the directory and any
missing ancestors, raising nothing when they already exist.  `fails` injects
an environment filesystem error, which the source propagates uncaught. -/
def mkdir_p (fails : Bool) (fs : FS) (d : PyPath) : Option PyErr × FS :=
  if fails then (some .osError, fs)
  else (none, (pathPrefixes d).foldl FS.addDir fs)

/-- The `logging.FileHandler(path)` side effect: creates the file if missing and
opens a handle on it, which stays open until `close` is called. -/
def FS.openFile (fs : FS) (p : PyPath) : FS :=
  { fs with
    files := if fs.files.contains p then fs.files else fs.files ++ [p]
    openHandles := fs.openHandles ++ [p] }

/-- Model of `Handler.close()`: releases the handle.  The source never calls it; it is
given here so the state space distinguishes a detached handler from a
released one. -/
def FS.closeHandle (fs : FS) (p : PyPath) : FS :=
  { fs with openHandles := fs.openHandles.eraseP (fun q => q = p) }

/-! ### The `logging` module fragment -/

/-- Python `str.upper()`, character by character (identical to Python on the
ASCII level names in scope). -/
def pyToUpper (s : String) : String :=
  ⟨s.data.map Char.toUpper⟩

/-- Model of `getattr(logging, name, None)` restricted by the
`isinstance(·, int)` test of the source: the integer-valued attributes of
the `logging` module are exactly the eight level constants. -/
def getattr_logging (name : String) : Option Int :=
  if name = "CRITICAL" then some 50
  else if name = "FATAL" then some 50
  else if name = "ERROR" then some 40
  else if name = "WARNING" then some 30
  else if name = "WARN" then some 30
  else if name = "INFO" then some 20
  else if name = "DEBUG" then some 10
  else if name = "NOTSET" then some 0
  else none

inductive HandlerKind where
  | file (path : PyPath)
  | console
  deriving DecidableEq, Repr

def HandlerKind.isFile : HandlerKind → Bool
  | .file _ => true
  | .console => false

def HandlerKind.isConsole : HandlerKind → Bool
  | .file _ => false
  | .console => true

/-- The `logging.Formatter(fmt, datefmt)` data the source passes to it. -/
structure PyFormatter where
  fmt : String
  datefmt : Option String
  deriving DecidableEq, Repr

structure Handler where
  kind : HandlerKind
  level : Int
  formatter : PyFormatter
  deriving DecidableEq, Repr

/-- A log record's fields, as used by the two format strings in the source. -/
structure LogRecord where
  time : PyDateTime
  levelname : String
  srcname : String
  message : String
  deriving DecidableEq, Repr

/-- One left-to-right pass of Python `%`-formatting over the format string,
restricted to the four keys occurring in the source's format strings.
Substituted values are not rescanned, as in Python. -/
def percentFormat (asctime levelname srcname message : String) :
    List Char → List Char
  | '%' :: '(' :: 'a' :: 's' :: 'c' :: 't' :: 'i' :: 'm' :: 'e' :: ')' :: 's' :: rest =>
      asctime.data ++ percentFormat asctime levelname srcname message rest
  | '%' :: '(' :: 'l' :: 'e' :: 'v' :: 'e' :: 'l' :: 'n' :: 'a' :: 'm' :: 'e' :: ')' :: 's' :: rest =>
      levelname.data ++ percentFormat asctime levelname srcname message rest
  | '%' :: '(' :: 'n' :: 'a' :: 'm' :: 'e' :: ')' :: 's' :: rest =>
      srcname.data ++ percentFormat asctime levelname srcname message rest
  | '%' :: '(' :: 'm' :: 'e' :: 's' :: 's' :: 'a' :: 'g' :: 'e' :: ')' :: 's' :: rest =>
      message.data ++ percentFormat asctime levelname srcname message rest
  | c :: rest => c :: percentFormat asctime levelname srcname message rest
  | [] => []

/-- Model of `Formatter.format(record)`.  The `asctime` value uses the formatter's `datefmt`;
with `datefmt=None` Python uses the default `"%Y-%m-%d %H:%M:%S"` and
appends milliseconds — in the source the only formatter that references
`asctime` supplies an explicit `datefmt`, so the millisecond suffix is
unreachable and omitted. -/
def PyFormatter.format (f : PyFormatter) (r : LogRecord) : String :=
  let asctime := strftime (f.datefmt.getD "%Y-%m-%d %H:%M:%S") r.time
  ⟨percentFormat asctime r.levelname r.srcname r.message f.fmt.data⟩

def Handler.formatRecord (h : Handler) (r : LogRecord) : String :=
  h.formatter.format r

/-- Root logger state: severity threshold and attached handler list. -/
structure RootLogger where
  level : Int
  handlers : List Handler
  deriving DecidableEq, Repr

/-- The process state `setup_logging` reads and mutates. -/
structure LoggingState where
  root : RootLogger
  fs : FS
  deriving DecidableEq, Repr

/-- A fresh Python process: root logger at WARNING with no handlers,
nothing created, no handles open. -/
def initLoggingState : LoggingState :=
  { root := { level := 30, handlers := [] }
    fs := { dirs := [], files := [], openHandles := [] } }

/-- The ambient environment of one call: current local time, and whether
the environment makes the (single) directory creation or the log-file open
of this call fail. -/
structure Env where
  now : PyDateTime
  mkdirFails : Bool
  openFails : Bool
  deriving DecidableEq, Repr

/-- Model of `generate_log_filename(log_dir)`: `mkdir -p` the directory, then return
`log_dir / strftime("%d%m%Y_%H%M%S") + ".log"`.  On a raise the path slot
is meaningless (the Python function never returns). -/
def generate_log_filename (env : Env) (fs : FS) (log_dir : String) :
    Option PyErr × FS × PyPath :=
  let dir := parsePath log_dir
  match mkdir_p env.mkdirFails fs dir with
  | (some e, fs1) => (some e, fs1, [])
  | (none, fs1) =>
      (none, fs1, dir ++ [strftime "%d%m%Y_%H%M%S" env.now ++ ".log"])

/-- The formatter of the file handler:
`'%(asctime)s\t[%(levelname)s] %(name)s: %(message)s'`,
`datefmt='%Y-%m-%d %H:%M:%S'`. -/
def formatter_file : PyFormatter :=
  { fmt := "%(asctime)s\t[%(levelname)s] %(name)s: %(message)s"
    datefmt := some "%Y-%m-%d %H:%M:%S" }

/-- The formatter of the console handler:
`'[%(levelname)s] %(name)s: %(message)s'`. -/
def formatter_console : PyFormatter :=
  { fmt := "[%(levelname)s] %(name)s: %(message)s", datefmt := none }

/-- Model of `setup_logging(level, output_file, log_dir)`, line by line:
resolve `getattr(logging, level.upper(), None)` and raise `ValueError` if it
is not an int; set the root logger's level; clear its handler list (without
closing the removed handlers); resolve the output file (generating a
timestamped name, or taking `output_file` verbatim after creating its
parent directory); open the file handler; attach file then console handler,
each at the resolved level with its formatter.  The final
`logger.info("Initialized logging. …")` emits a record and changes none of
the modelled state.  The returned state is the state at return or at the
moment of the raise. -/
def setup_logging (env : Env) (st : LoggingState) (level : String)
    (output_file : Option String := none) (log_dir : String := "logs") :
    Option PyErr × LoggingState :=
  match getattr_logging (pyToUpper level) with
  | none => (some (.valueError ("Invalid logging level: " ++ level)), st)
  | some numeric_level =>
    let st1 : LoggingState :=
      { st with root := { level := numeric_level, handlers := [] } }
    let resolved : Option PyErr × FS × PyPath :=
      match output_file with
      | none => generate_log_filename env st1.fs log_dir
      | some p =>
          let pp := parsePath p
          match mkdir_p env.mkdirFails st1.fs pp.dropLast with
          | (some e, fs1) => (some e, fs1, [])
          | (none, fs1) => (none, fs1, pp)
    match resolved with
    | (some e, fs1, _) => (some e, { st1 with fs := fs1 })
    | (none, fs1, path) =>
      if env.openFails then (some .osError, { st1 with fs := fs1 })
      else
        let file_handler : Handler :=
          { kind := .file path, level := numeric_level, formatter := formatter_file }
        let console_handler : Handler :=
          { kind := .console, level := numeric_level, formatter := formatter_console }
        (none,
          { root :=
              { level := numeric_level
                handlers := st1.root.handlers ++ [file_handler, console_handler] }
            fs := fs1.openFile path })

/-! ### The `hydra` fragment and `load_config`

`conf/load_config.py` delegates composition to the external `hydra`
library.  Its relevant semantics: `GlobalHydra` is a process-wide
singleton; `initialize` raises if it is already initialized and otherwise
records the search path; `compose` raises "GlobalHydra is not initialized"
when the singleton is clear, and otherwise composes the named source from
the recorded search path (composition itself can fail on a missing or
malformed source — an external outcome, passed in as `composeOk`);
`GlobalHydra.instance().clear()` resets the singleton. -/

structure HydraContext where
  config_path : String
  job_name : String
  deriving DecidableEq, Repr

structure GlobalHydra where
  context : Option HydraContext
  deriving DecidableEq, Repr

def freshGlobalHydra : GlobalHydra := { context := none }

inductive HydraErr where
  | alreadyInitialized
  | notInitialized
  /-- missing source, malformed entries, …: propagated untranslated -/
  | composeError
  deriving DecidableEq, Repr

def hydra_initialize (gh : GlobalHydra) (config_path job_name : String) :
    Except HydraErr GlobalHydra :=
  match gh.context with
  | some _ => .error .alreadyInitialized
  | none => .ok { context := some { config_path := config_path, job_name := job_name } }

/-- The composed mapping, identified by what determines it: the search path
the context was initialized with and the configuration-source name.  Its
schema is owned by the external library and out of scope. -/
structure DictConfig where
  search_path : String
  config_name : String
  deriving DecidableEq, Repr

def hydra_compose (gh : GlobalHydra) (config_name : String) (composeOk : Bool) :
    Except HydraErr DictConfig :=
  match gh.context with
  | none => .error .notInitialized
  | some ctx =>
      if composeOk then .ok { search_path := ctx.config_path, config_name := config_name }
      else .error .composeError

def hydra_clear (_gh : GlobalHydra) : GlobalHydra :=
  { context := none }

/-- The module-level statement of `conf/load_config.py`, executed exactly
once, when the module is imported:
`initialize(config_path="../conf", job_name="test", version_base=None)`. -/
def importLoadConfigModule (gh : GlobalHydra) : Except HydraErr GlobalHydra :=
  hydra_initialize gh "../conf" "test"

/-- The `GlobalHydra` state right after a fresh process imports
`conf/load_config.py`. -/
def ghAfterImport : GlobalHydra :=
  { context := some { config_path := "../conf", job_name := "test" } }

/-- Model of `load_config()`: `cfg = compose(config_name="config")`, then
`GlobalHydra.instance().clear()`, then `return cfg`.  There is no
`try`/`finally`: when `compose` raises, the exception propagates and the
`clear()` line never runs, so the singleton keeps its prior state.  The
result carries the raised error (if any), the `GlobalHydra` state after the
call, and the returned mapping (if any). -/
def load_config (gh : GlobalHydra) (composeOk : Bool) :
    Option HydraErr × GlobalHydra × Option DictConfig :=
  match hydra_compose gh "config" composeOk with
  | .error e => (some e, gh, none)
  | .ok cfg => (none, hydra_clear gh, some cfg)

/-! ### Concrete fixtures used by witnesses and counterexamples -/

/-- A benign environment: 2026-01-29 14:30:52, no filesystem failures. -/
def env0 : Env :=
  { now := { year := 2026, month := 1, day := 29, hour := 14, minute := 30, second := 52 }
    mkdirFails := false, openFails := false }

/-- Same environment one second later. -/
def env1 : Env :=
  { env0 with now := { env0.now with second := 53 } }

/-- An environment where directory creation fails (e.g. permission denied). -/
def envMkdirFail : Env := { env0 with mkdirFails := true }

/-- An environment where opening the log file fails. -/
def envOpenFail : Env := { env0 with openFails := true }

/-- A sample log record. -/
def record0 : LogRecord :=
  { time := env0.now, levelname := "INFO", srcname := "root", message := "hello" }

/-- The file handler a call under `env0` at level INFO attaches. -/
def fileHandler0 : Handler :=
  { kind := .file ["logs", "29012026_143052.log"], level := 20, formatter := formatter_file }

/-- The console handler a call at level INFO attaches. -/
def consoleHandler0 : Handler :=
  { kind := .console, level := 20, formatter := formatter_console }

/-! ### Helper lemmas -/

theorem getattr_logging_eq_none_iff (s : String) :
    getattr_logging s = none ↔
      s ∉ ["CRITICAL", "FATAL", "ERROR", "WARNING", "WARN", "INFO", "DEBUG", "NOTSET"] := by
  unfold getattr_logging
  split_ifs <;> simp_all

theorem FS.mem_dirs_addDir_self (fs : FS) (d : PyPath) : d ∈ (fs.addDir d).dirs := by
  unfold FS.addDir
  split_ifs with hc
  · simpa [List.contains] using hc
  · simp

theorem FS.mem_dirs_addDir_of_mem (fs : FS) (d x : PyPath) (hx : x ∈ fs.dirs) :
    x ∈ (fs.addDir d).dirs := by
  unfold FS.addDir
  split_ifs <;> simp [hx]

theorem mem_dirs_foldl_addDir_of_mem (ds : List PyPath) (fs : FS) (x : PyPath)
    (hx : x ∈ fs.dirs) : x ∈ (ds.foldl FS.addDir fs).dirs := by
  induction ds generalizing fs with
  | nil => simpa using hx
  | cons dhd dtl ih =>
      exact ih (fs.addDir dhd) (fs.mem_dirs_addDir_of_mem dhd x hx)

theorem mem_dirs_foldl_addDir (ds : List PyPath) (fs : FS) (x : PyPath) (hx : x ∈ ds) :
    x ∈ (ds.foldl FS.addDir fs).dirs := by
  induction ds generalizing fs with
  | nil => simp at hx
  | cons dhd dtl ih =>
      rcases List.mem_cons.mp hx with hx | hx
      · subst hx
        exact mem_dirs_foldl_addDir_of_mem dtl (fs.addDir x) x (fs.mem_dirs_addDir_self x)
      · exact ih (fs.addDir dhd) hx

theorem openHandles_foldl_addDir (ds : List PyPath) (fs : FS) :
    (ds.foldl FS.addDir fs).openHandles = fs.openHandles := by
  induction ds generalizing fs with
  | nil => rfl
  | cons dhd dtl ih =>
      rw [List.foldl_cons, ih]
      unfold FS.addDir
      split_ifs <;> rfl

/-- An invalid level name makes `setup_logging` return the `ValueError`
with the untouched input state. -/
theorem setup_logging_invalid_eq (env : Env) (st : LoggingState) (level : String)
    (o : Option String) (d : String) (h : getattr_logging (pyToUpper level) = none) :
    setup_logging env st level o d =
      (some (.valueError ("Invalid logging level: " ++ level)), st) := by
  unfold setup_logging
  rw [h]

/-- Once the level resolves, the only possible raise is an `OSError`;
no branch after validation produces a `ValueError`. -/
theorem setup_logging_err_not_valueError (env : Env) (st : LoggingState) (level : String)
    (o : Option String) (d : String) (n : Int) (msg : String)
    (hn : getattr_logging (pyToUpper level) = some n) :
    (setup_logging env st level o d).1 ≠ some (.valueError msg) := by
  rcases o with _ | p <;> cases hm : env.mkdirFails <;> cases ho : env.openFails <;>
    simp [setup_logging, generate_log_filename, mkdir_p, hn, hm, ho]

/-- Shape of the state after a `setup_logging` call that returns normally:
the root logger carries the resolved level and exactly the fresh file
handler followed by the fresh console handler. -/
theorem setup_logging_ok_shape (env : Env) (st : LoggingState) (level : String)
    (o : Option String) (d : String) (st' : LoggingState)
    (h : setup_logging env st level o d = (none, st')) :
    ∃ n path,
      getattr_logging (pyToUpper level) = some n ∧
      st'.root.level = n ∧
      st'.root.handlers =
        [{ kind := .file path, level := n, formatter := formatter_file },
         { kind := .console, level := n, formatter := formatter_console }] := by
  unfold setup_logging at h
  split at h
  · simp at h
  · rename_i n hg
    refine ⟨n, ?_⟩
    simp only [generate_log_filename, mkdir_p] at h
    split at h
    · simp at h
    · rename_i path heq
      split at h
      · simp at h
      · rw [Prod.mk.injEq] at h
        refine ⟨path, hg, ?_, ?_⟩
        · rw [← h.2]
        · rw [← h.2]
          simp

/-- Shape of the state after a `setup_logging` call that raises an
`OSError`: the raise happened after the level was replaced and the handler
list cleared, and before any handler was attached. -/
theorem setup_logging_osError_shape (env : Env) (st : LoggingState) (level : String)
    (o : Option String) (d : String) (st' : LoggingState)
    (h : setup_logging env st level o d = (some PyErr.osError, st')) :
    ∃ n, getattr_logging (pyToUpper level) = some n ∧
      st'.root = { level := n, handlers := [] } := by
  unfold setup_logging at h
  split at h
  · simp at h
  · rename_i n hg
    refine ⟨n, hg, ?_⟩
    simp only [generate_log_filename, mkdir_p] at h
    split at h
    · rw [Prod.mk.injEq] at h
      rw [← h.2]
    · split at h
      · rw [Prod.mk.injEq] at h
        rw [← h.2]
      · simp at h

/-- The file format string, expanded by one `%`-formatting pass. -/
theorem percentFormat_file_fmt (a l n m : String) :
    percentFormat a l n m "%(asctime)s\t[%(levelname)s] %(name)s: %(message)s".data =
      a.data ++ '\t' :: '[' ::
        (l.data ++ ']' :: ' ' :: (n.data ++ ':' :: ' ' :: (m.data ++ []))) := rfl

/-- The console format string, expanded by one `%`-formatting pass. -/
theorem percentFormat_console_fmt (a l n m : String) :
    percentFormat a l n m "[%(levelname)s] %(name)s: %(message)s".data =
      '[' :: (l.data ++ ']' :: ' ' :: (n.data ++ ':' :: ' ' :: (m.data ++ []))) := rfl

theorem formatter_file_format (r : LogRecord) :
    formatter_file.format r =
      strftime "%Y-%m-%d %H:%M:%S" r.time ++ "\t[" ++ r.levelname ++ "] " ++
        r.srcname ++ ": " ++ r.message := by
  have h := percentFormat_file_fmt (strftime "%Y-%m-%d %H:%M:%S" r.time)
    r.levelname r.srcname r.message
  apply String.ext
  simp only [PyFormatter.format, formatter_file, Option.getD_some]
  rw [h]
  simp [String.data_append, List.append_assoc]

theorem formatter_console_format (r : LogRecord) :
    formatter_console.format r =
      "[" ++ r.levelname ++ "] " ++ r.srcname ++ ": " ++ r.message := by
  have h := percentFormat_console_fmt (strftime "%Y-%m-%d %H:%M:%S" r.time)
    r.levelname r.srcname r.message
  apply String.ext
  simp only [PyFormatter.format, formatter_console, Option.getD_none]
  rw [h]
  simp [String.data_append, List.append_assoc]

/-! ### Claim theorems -/

/-- C1: after any call to `setup_logging` that returns normally, the root
logger has exactly two sinks attached — one file sink and one console
sink — never more, regardless of the handlers attached before the call
(and hence regardless of how many times `setup_logging` ran before). -/
theorem setup_logging_exactly_two_sinks (env : Env) (st : LoggingState) (level : String)
    (o : Option String) (d : String) (st' : LoggingState)
    (h : setup_logging env st level o d = (none, st')) :
    st'.root.handlers.length = 2 ∧
    (st'.root.handlers.countP (fun hd => hd.kind.isFile)) = 1 ∧
    (st'.root.handlers.countP (fun hd => hd.kind.isConsole)) = 1 := by
  obtain ⟨n, path, -, -, hh⟩ := setup_logging_ok_shape env st level o d st' h
  rw [hh]
  simp [List.countP_cons, HandlerKind.isFile, HandlerKind.isConsole]

/-- Witness for C1: a concrete second call, starting from the state a
first call produced (so two handlers were already attached). -/
theorem setup_logging_exactly_two_sinks_witness :
    ((setup_logging env1 (setup_logging env0 initLoggingState "DEBUG" none "logs").2
        "INFO" none "logs").2.root.handlers).length = 2 := by
  have h := setup_logging_exactly_two_sinks env1
    (setup_logging env0 initLoggingState "DEBUG" none "logs").2 "INFO" none "logs"
    (setup_logging env1 (setup_logging env0 initLoggingState "DEBUG" none "logs").2
      "INFO" none "logs").2 (by decide)
  exact h.1

/-- C2 counterexample: the claim says the accepted level names are exactly
{DEBUG, INFO, WARNING, ERROR, CRITICAL} (case-insensitively), but the code
also accepts "WARN": the call returns normally rather than raising. -/
theorem setup_logging_accepts_warn :
    (setup_logging env0 initLoggingState "WARN" none "logs").1 = none ∧
    pyToUpper "WARN" ∉ ["DEBUG", "INFO", "WARNING", "ERROR", "CRITICAL"] := by decide

/-- C2 (amended): `setup_logging` raises `ValueError` exactly when the
uppercased level name is not one of the eight integer level constants of
the `logging` module — the five standard names plus the aliases `WARN`,
`FATAL` and `NOTSET`. -/
theorem setup_logging_level_validation (env : Env) (st : LoggingState) (level : String)
    (o : Option String) (d : String) :
    (∃ msg, (setup_logging env st level o d).1 = some (PyErr.valueError msg)) ↔
      pyToUpper level ∉
        ["CRITICAL", "FATAL", "ERROR", "WARNING", "WARN", "INFO", "DEBUG", "NOTSET"] := by
  rw [← getattr_logging_eq_none_iff]
  constructor
  · rintro ⟨msg, hmsg⟩
    by_contra hne
    obtain ⟨n, hn⟩ := Option.ne_none_iff_exists'.mp hne
    exact setup_logging_err_not_valueError env st level o d n msg hn hmsg
  · intro hnone
    exact ⟨_, by rw [setup_logging_invalid_eq env st level o d hnone]⟩

/-- Witness for C2 (amended): applying the validation characterisation at
the invalid name "bogus" shows the call raises. -/
theorem setup_logging_level_validation_witness :
    (setup_logging env0 initLoggingState "bogus" none "logs").1.isSome = true := by
  obtain ⟨msg, hmsg⟩ :=
    (setup_logging_level_validation env0 initLoggingState "bogus" none "logs").mpr (by decide)
  rw [hmsg]
  rfl

/-- C3: when `setup_logging` raises on an invalid level name, nothing has
been mutated: the root logger's level and handler list and the whole
filesystem state are exactly as before the call. -/
theorem setup_logging_invalid_no_mutation (env : Env) (st : LoggingState) (level : String)
    (o : Option String) (d : String) (msg : String)
    (h : (setup_logging env st level o d).1 = some (PyErr.valueError msg)) :
    (setup_logging env st level o d).2 = st := by
  cases hg : getattr_logging (pyToUpper level) with
  | none => rw [setup_logging_invalid_eq env st level o d hg]
  | some n => exact absurd h (setup_logging_err_not_valueError env st level o d n msg hg)

/-- Witness for C3: `setup_logging(level="bogus")` raises and leaves the
fresh-process state untouched. -/
theorem setup_logging_invalid_no_mutation_witness :
    (setup_logging env0 initLoggingState "bogus" none "logs").2 = initLoggingState :=
  setup_logging_invalid_no_mutation env0 initLoggingState "bogus" none "logs"
    "Invalid logging level: bogus" (by decide)

/-- C5: when the environment lets the directory creation succeed,
`generate_log_filename` returns normally; afterwards the requested
directory and all its intermediate ancestors exist; the returned path is
the requested directory extended by the filename
`strftime("%d%m%Y_%H%M%S") ++ ".log"` (so its parent is the requested
directory); and the path does not depend on the prior filesystem state, so
any two calls with the same directory during the same wall-clock second
return identical paths. -/
theorem generate_log_filename_spec (env : Env) (fs : FS) (d : String)
    (h : env.mkdirFails = false) :
    (generate_log_filename env fs d).1 = none ∧
    (∀ pre ∈ pathPrefixes (parsePath d), pre ∈ (generate_log_filename env fs d).2.1.dirs) ∧
    (generate_log_filename env fs d).2.2 =
      parsePath d ++ [strftime "%d%m%Y_%H%M%S" env.now ++ ".log"] ∧
    (generate_log_filename env fs d).2.2.dropLast = parsePath d ∧
    (∀ fs' : FS, (generate_log_filename env fs' d).2.2 = (generate_log_filename env fs d).2.2) := by
  unfold generate_log_filename mkdir_p
  rw [h]
  refine ⟨rfl, ?_, rfl, List.dropLast_concat, fun fs' => rfl⟩
  intro pre hpre
  simpa using mem_dirs_foldl_addDir (pathPrefixes (parsePath d)) fs pre hpre

/-- Witness for C5: a concrete call with directory "logs" on an empty
filesystem. -/
theorem generate_log_filename_spec_witness :
    (generate_log_filename env0 ⟨[], [], []⟩ "logs").1 = none ∧
    (generate_log_filename env0 ⟨[], [], []⟩ "logs").2.2.dropLast = parsePath "logs" := by
  have h := generate_log_filename_spec env0 ⟨[], [], []⟩ "logs" rfl
  exact ⟨h.1, h.2.2.2.1⟩

/-- C6: after a successful `setup_logging` call, every record emitted
through the file sink is formatted as the `YYYY-MM-DD HH:MM:SS` timestamp,
a tab, then `[LEVEL] name: message`, while every record emitted through
the console sink is formatted as `[LEVEL] name: message` with no
timestamp. -/
theorem setup_logging_sink_formats (env : Env) (st : LoggingState) (level : String)
    (o : Option String) (d : String) (st' : LoggingState)
    (h : setup_logging env st level o d = (none, st')) :
    ∀ hd ∈ st'.root.handlers, ∀ r : LogRecord,
      (hd.kind.isFile = true →
        hd.formatRecord r =
          strftime "%Y-%m-%d %H:%M:%S" r.time ++ "\t[" ++ r.levelname ++ "] " ++
            r.srcname ++ ": " ++ r.message) ∧
      (hd.kind.isConsole = true →
        hd.formatRecord r =
          "[" ++ r.levelname ++ "] " ++ r.srcname ++ ": " ++ r.message) := by
  obtain ⟨n, path, -, -, hh⟩ := setup_logging_ok_shape env st level o d st' h
  rw [hh]
  intro hd hmem r
  rcases List.mem_cons.mp hmem with hfile | hmem
  · subst hfile
    refine ⟨fun _ => ?_, fun hc => by simp [HandlerKind.isConsole] at hc⟩
    exact formatter_file_format r
  · rcases List.mem_cons.mp hmem with hcons | hmem
    · subst hcons
      refine ⟨fun hf => by simp [HandlerKind.isFile] at hf, fun _ => ?_⟩
      exact formatter_console_format r
    · simp at hmem

/-- Witness for C6: the file handler produced by a concrete call formats a
concrete record with timestamp and tab, and the console handler without. -/
theorem setup_logging_sink_formats_witness :
    Handler.formatRecord fileHandler0 record0 = "2026-01-29 14:30:52\t[INFO] root: hello" ∧
    Handler.formatRecord consoleHandler0 record0 = "[INFO] root: hello" := by
  have h := setup_logging_sink_formats env0 initLoggingState "INFO" none "logs"
    (setup_logging env0 initLoggingState "INFO" none "logs").2 (by decide)
  constructor
  · have hf := (h fileHandler0 (by decide) record0).1 rfl
    rw [hf]
    decide
  · have hc := (h consoleHandler0 (by decide) record0).2 rfl
    rw [hc]
    decide

/-- C8: when `setup_logging` fails after the sink-removal step (an
`OSError` from creating the directory or opening the log file), the
removal is not rolled back: the root logger is left with an empty handler
list. -/
theorem setup_logging_osError_empty_handlers (env : Env) (st : LoggingState) (level : String)
    (o : Option String) (d : String) (st' : LoggingState)
    (h : setup_logging env st level o d = (some PyErr.osError, st')) :
    st'.root.handlers = [] := by
  obtain ⟨n, -, hr⟩ := setup_logging_osError_shape env st level o d st' h
  rw [hr]

/-- Witness for C8: a concrete call where directory creation fails leaves
an empty handler list. -/
theorem setup_logging_osError_empty_handlers_witness :
    (setup_logging envMkdirFail initLoggingState "INFO" none "logs").2.root.handlers = [] :=
  setup_logging_osError_empty_handlers envMkdirFail initLoggingState "INFO" none "logs"
    (setup_logging envMkdirFail initLoggingState "INFO" none "logs").2 (by decide)

/-- C9 counterexample: the claim says a repeated `setup_logging` call
closes the previous call's file sink before attaching new ones, but after
a concrete second call the file handle opened by the first call is still
open (both handles are), so it was merely detached. -/
theorem setup_logging_old_handle_not_closed :
    (setup_logging env1 (setup_logging env0 initLoggingState "INFO" none "logs").2
        "INFO" none "logs").2.fs.openHandles =
      [["logs", "29012026_143052.log"], ["logs", "29012026_143053.log"]] := by decide

/-- C9 (amended): a repeated `setup_logging` call removes the previously
attached sinks from the handler list but never calls their `close`: every
file handle open before the call is still open after it, whatever the
call's outcome. -/
theorem setup_logging_never_closes_handles (env : Env) (st : LoggingState) (level : String)
    (o : Option String) (d : String) :
    ∃ newHandles,
      (setup_logging env st level o d).2.fs.openHandles =
        st.fs.openHandles ++ newHandles := by
  cases hg : getattr_logging (pyToUpper level) with
  | none =>
      rw [setup_logging_invalid_eq env st level o d hg]
      exact ⟨[], by simp⟩
  | some n =>
      rcases o with _ | p <;> cases hm : env.mkdirFails <;> cases ho : env.openFails <;>
        simp [setup_logging, generate_log_filename, mkdir_p, FS.openFile, hg, hm, ho,
          openHandles_foldl_addDir]

/-- C10: when a valid-level `setup_logging` call fails in a later step
(an `OSError`), the root logger's severity threshold has already been
replaced with the resolved value and is not restored, so the call leaves
the new level together with an empty handler list. -/
theorem setup_logging_osError_level_replaced (env : Env) (st : LoggingState) (level : String)
    (o : Option String) (d : String) (st' : LoggingState) (n : Int)
    (hn : getattr_logging (pyToUpper level) = some n)
    (h : setup_logging env st level o d = (some PyErr.osError, st')) :
    st'.root.level = n ∧ st'.root.handlers = [] := by
  obtain ⟨n', hg, hr⟩ := setup_logging_osError_shape env st level o d st' h
  rw [hn] at hg
  obtain rfl : n = n' := Option.some.inj hg
  rw [hr]
  exact ⟨rfl, rfl⟩

/-- Witness for C10: a failed `setup_logging(level="DEBUG")` call (log
file cannot be opened) leaves level 10 and no handlers. -/
theorem setup_logging_osError_level_replaced_witness :
    (setup_logging envOpenFail initLoggingState "DEBUG" none "logs").2.root.level = 10 ∧
    (setup_logging envOpenFail initLoggingState "DEBUG" none "logs").2.root.handlers = [] :=
  setup_logging_osError_level_replaced envOpenFail initLoggingState "DEBUG" none "logs"
    (setup_logging envOpenFail initLoggingState "DEBUG" none "logs").2 10
    (by decide) (by decide)

/-- C4 counterexample: the claim says `load_config` can be called
repeatedly, the second call succeeding just as the first; but in a fresh
process (import, then two calls with the composition source intact) the
first call succeeds and the second raises the not-initialized error,
because the first call cleared the global context that only module import
initializes. -/
theorem load_config_second_call_fails :
    importLoadConfigModule freshGlobalHydra = Except.ok ghAfterImport ∧
    (load_config ghAfterImport true).1 = none ∧
    (load_config (load_config ghAfterImport true).2.1 true).1 =
      some HydraErr.notInitialized :=
  ⟨rfl, by decide, by decide⟩

/-- C4 (amended): after module import, the first `load_config` call
composes the fixed named source "config" from the fixed search path
"../conf" and returns it; but the call clears the global context, so every
subsequent call raises the not-initialized error instead of returning a
second mapping, whatever the external composition outcome would be. -/
theorem load_config_first_call_only (composeOk : Bool) :
    load_config ghAfterImport true =
      (none, freshGlobalHydra, some { search_path := "../conf", config_name := "config" }) ∧
    (load_config (load_config ghAfterImport true).2.1 composeOk).1 =
      some HydraErr.notInitialized := by
  cases composeOk <;> decide

/-- C7 counterexample: the claim says the composition context is released
even when composition raises; but after a call in which composition fails,
the global context still holds the state module import gave it — residual
composition state survives the raise. -/
theorem load_config_residual_context_on_error :
    (load_config ghAfterImport false).1 = some HydraErr.composeError ∧
    (load_config ghAfterImport false).2.1.context =
      some { config_path := "../conf", job_name := "test" } := by decide

/-- C7 (amended): `load_config` does not initialize the context (that
happens once, at module import) and clears it only on the success path:
when the call returns normally the global context is clear, and when
composition raises the context is exactly what it was before the call. -/
theorem load_config_clear_only_on_success (gh : GlobalHydra) (composeOk : Bool) :
    ((load_config gh composeOk).1 = none → (load_config gh composeOk).2.1.context = none) ∧
    ((load_config gh composeOk).1 ≠ none → (load_config gh composeOk).2.1 = gh) := by
  rcases gh with ⟨_ | ctx⟩ <;> cases composeOk <;>
    simp [load_config, hydra_compose, hydra_clear]

/-- Witness for C7 (amended): both arms at concrete inputs — a successful
call leaves the context clear, a failing one leaves it untouched. -/
theorem load_config_clear_only_on_success_witness :
    (load_config ghAfterImport true).2.1.context = none ∧
    (load_config ghAfterImport false).2.1 = ghAfterImport :=
  ⟨(load_config_clear_only_on_success ghAfterImport true).1 (by decide),
   (load_config_clear_only_on_success ghAfterImport false).2 (by decide)⟩

end SampleProject
